import Mathlib

/-!
Shallow embedding of the YouTube sentiment monitoring core
(src/sentiment_analyzer.py, src/config.py, src/youtube_monitor.py).

Conventions of the embedding:
* Python floats are modelled as rationals (`ℚ`); Python ints as `ℤ` or `ℕ`.
* ISO-8601 timestamp strings are kept as `String`; SQLite compares TEXT
  columns lexicographically, which for ISO timestamps is chronological,
  so `ORDER BY timestamp` is modelled with `String.lt`.
* The SQLite database is a record of four tables, each a row list.
  `INSERT OR REPLACE` deletes the conflicting rows and appends the new one;
  `INSERT OR IGNORE` is a no-op when a row with the same unique key exists.
* Wall-clock reads (`datetime.now()`) are passed in as explicit timestamp
  parameters; network calls are passed in as explicit outcome parameters.
* `print` diagnostics are modelled, where a claim needs them, as a list of
  short message tags returned beside the real return value.
-/

/-- From src/config.py line 29: `SENTIMENT_THRESHOLD_POSITIVE = 0.1`. -/
def SENTIMENT_THRESHOLD_POSITIVE : ℚ := 1/10

/-- From src/config.py line 30: `SENTIMENT_THRESHOLD_NEGATIVE = -0.1`. -/
def SENTIMENT_THRESHOLD_NEGATIVE : ℚ := -(1/10)

/-- From src/sentiment_analyzer.py `calculate_sentiment`.  The external
TextBlob polarity call is an oracle `blob : String → Option ℚ`; `none`
models the call raising, which the bare `except:` turns into `0.0`. -/
def calculate_sentiment (blob : String → Option ℚ) (comment_text : String) : ℚ :=
  match blob comment_text with
  | some q => q
  | none => 0

/-- From src/sentiment_analyzer.py `categorize_sentiment` (the if/elif
chain, thresholds passed explicitly). -/
def categorize_sentiment (polarity positive_threshold negative_threshold : ℚ) : String :=
  if polarity < -(1/2) then "Very Negative"
  else if polarity < negative_threshold then "Negative"
  else if polarity ≤ positive_threshold then "Neutral"
  else if polarity ≤ 1/2 then "Positive"
  else "Very Positive"

/-- `categorize_sentiment` at the config defaults (the `None` defaults of
the Python signature resolve to the config thresholds). -/
def categorize_default (polarity : ℚ) : String :=
  categorize_sentiment polarity SENTIMENT_THRESHOLD_POSITIVE SENTIMENT_THRESHOLD_NEGATIVE

/-- Row of the `video_info_cache` table (src/youtube_monitor.py lines 60-72). -/
structure VideoInfoRow where
  video_id : String
  title : String
  channel_title : String
  description : String
  published_at : String
  view_count : ℤ
  like_count : ℤ
  comment_count : ℤ
  last_updated : String
deriving DecidableEq

/-- Row of the `video_sentiment_history` table (lines 75-87),
UNIQUE(video_id, timestamp). -/
structure HistoryRow where
  video_id : String
  timestamp : String
  avg_sentiment : ℚ
  positive_count : ℤ
  negative_count : ℤ
  neutral_count : ℤ
  total_comments : ℤ
deriving DecidableEq

/-- Row of the `comment_snapshots` table (lines 89-101),
UNIQUE(video_id, comment_id, timestamp). -/
structure SnapshotRow where
  video_id : String
  comment_id : String
  timestamp : String
  comment_text : String
  sentiment : ℚ
  author : String
  like_count : ℤ
deriving DecidableEq

/-- Row of the `alerts` table (lines 103-113).  The human-readable
`message` column (an f-string rendering of the same numbers) is elided. -/
structure AlertRow where
  video_id : String
  alert_type : String
  timestamp : String
  threshold : ℚ
  current_value : ℚ
deriving DecidableEq

/-- The monitoring database: the four tables created by `_init_database`. -/
structure MonitorDB where
  video_info_cache : List VideoInfoRow
  video_sentiment_history : List HistoryRow
  comment_snapshots : List SnapshotRow
  alerts : List AlertRow
deriving DecidableEq

/-- A fetched comment as used downstream (the fields of the dicts built in
`fetch_video_comments` that later code reads). -/
structure RawComment where
  comment_id : String
  comment_text : String
  author : String
  like_count : ℤ
deriving DecidableEq

/-- A row of the analyzed DataFrame: a comment plus its `Polarity` column. -/
structure AnalyzedComment where
  comment_id : String
  comment_text : String
  author : String
  like_count : ℤ
  polarity : ℚ
deriving DecidableEq

/-- `df['Polarity'].mean()`: sum divided by length (division by zero only
ever guarded off by the callers' emptiness checks). -/
def mean (ps : List ℚ) : ℚ := ps.sum / (ps.length : ℚ)

/-- `(df['Polarity'] > 0.1).sum()` from save_snapshot line 298. -/
def positive_count_of (ps : List ℚ) : ℤ :=
  ((ps.filter (fun p => decide ((1:ℚ)/10 < p))).length : ℤ)

/-- `(df['Polarity'] < -0.1).sum()` from save_snapshot line 299. -/
def negative_count_of (ps : List ℚ) : ℤ :=
  ((ps.filter (fun p => decide (p < -((1:ℚ)/10)))).length : ℤ)

/-- Unique-key test for `video_sentiment_history` rows:
UNIQUE(video_id, timestamp). -/
def sameHistKey (a b : HistoryRow) : Bool :=
  a.video_id == b.video_id && a.timestamp == b.timestamp

/-- `INSERT OR REPLACE INTO video_sentiment_history` (lines 302-314):
SQLite deletes the rows conflicting on the unique key, then inserts. -/
def insertOrReplaceHistory (rows : List HistoryRow) (r : HistoryRow) : List HistoryRow :=
  rows.filter (fun x => !(sameHistKey x r)) ++ [r]

/-- Unique-key test for `comment_snapshots` rows:
UNIQUE(video_id, comment_id, timestamp). -/
def sameSnapKey (a b : SnapshotRow) : Bool :=
  a.video_id == b.video_id && a.comment_id == b.comment_id && a.timestamp == b.timestamp

/-- Whether some existing row conflicts with `r` on the unique key. -/
def hasSnapKey (rows : List SnapshotRow) (r : SnapshotRow) : Bool :=
  rows.any (fun x => sameSnapKey x r)

/-- `INSERT OR IGNORE INTO comment_snapshots` (lines 282-294): the insert
is a no-op when a row with the same unique key already exists. -/
def insertOrIgnoreSnapshot (rows : List SnapshotRow) (r : SnapshotRow) : List SnapshotRow :=
  if hasSnapKey rows r then rows else rows ++ [r]

/-- The per-row insert loop of save_snapshot (lines 281-294) over a whole
batch of snapshot rows. -/
def appendCommentSnapshots (rows : List SnapshotRow) (batch : List SnapshotRow) : List SnapshotRow :=
  batch.foldl insertOrIgnoreSnapshot rows

/-- The snapshot row save_snapshot builds for one analyzed comment. -/
def snapshotRowOf (video_id timestamp : String) (c : AnalyzedComment) : SnapshotRow :=
  ⟨video_id, c.comment_id, timestamp, c.comment_text, c.polarity, c.author, c.like_count⟩

/-- The alert threshold dictionary of check_sentiment_alerts. -/
structure Thresholds where
  negative_threshold : ℚ
  positive_threshold : ℚ
  drop_threshold : ℚ
  rise_threshold : ℚ
deriving DecidableEq

/-- The defaults built when `thresholds is None` (lines 329-335). -/
def default_thresholds : Thresholds :=
  ⟨-(3/10), 1/2, 1/5, 1/5⟩

/-- One entry of the `alerts_triggered` list built by
check_sentiment_alerts: its `type`, `threshold` and `value` keys (the
f-string `message` key is elided). -/
structure AlertTrig where
  alert_type : String
  threshold : ℚ
  value : ℚ
deriving DecidableEq

/-- Lexicographic comparison of character lists: the order SQLite's
`ORDER BY` uses on TEXT columns (for the ASCII ISO-8601 timestamps stored
here, byte order and character order coincide). -/
def charListLt : List Char → List Char → Bool
  | [], [] => false
  | [], _ :: _ => true
  | _ :: _, [] => false
  | a :: as, b :: bs => if a < b then true else if b < a then false else charListLt as bs

/-- Lexicographic order on timestamp strings (SQLite TEXT ordering). -/
def strLt (a b : String) : Bool := charListLt a.data b.data

/-- The inline query of check_sentiment_alerts lines 342-351:
`SELECT avg_sentiment, timestamp FROM video_sentiment_history WHERE
video_id = ? ORDER BY timestamp DESC LIMIT 1` — the row for this video
with the greatest timestamp (ISO strings compare lexicographically).
The spec names this operation `queryLatestHistory`. -/
def queryLatestHistory (rows : List HistoryRow) (video_id : String) : Option HistoryRow :=
  (rows.filter (fun r => r.video_id == video_id)).foldl
    (fun acc r =>
      match acc with
      | none => some r
      | some a => if strLt a.timestamp r.timestamp then some r else some a)
    none

/-- The pure alert evaluation of check_sentiment_alerts lines 353-389:
the four threshold checks, in source order, given the current average and
the previously stored average (if any). -/
def alerts_for (current_sentiment : ℚ) (previous_sentiment : Option ℚ)
    (thresholds : Thresholds) : List AlertTrig :=
  (if current_sentiment < thresholds.negative_threshold then
    [⟨"negative_threshold", thresholds.negative_threshold, current_sentiment⟩]
  else []) ++
  (if thresholds.positive_threshold < current_sentiment then
    [⟨"positive_threshold", thresholds.positive_threshold, current_sentiment⟩]
  else []) ++
  (match previous_sentiment with
   | none => []
   | some prev =>
     let sentiment_change := current_sentiment - prev
     (if sentiment_change < -thresholds.drop_threshold then
       [⟨"sentiment_drop", thresholds.drop_threshold, sentiment_change⟩]
     else []) ++
     (if thresholds.rise_threshold < sentiment_change then
       [⟨"sentiment_rise", thresholds.rise_threshold, sentiment_change⟩]
     else []))

/-- From src/youtube_monitor.py `check_sentiment_alerts` (lines 319-408):
reads the latest stored history row as the baseline, evaluates the
thresholds, inserts one `alerts` row per triggered alert, and returns the
triggered list.  `timestamp` is the `datetime.now().isoformat()` of
line 338. -/
def check_sentiment_alerts (db : MonitorDB) (video_id : String) (current_sentiment : ℚ)
    (thresholds : Thresholds) (timestamp : String) : List AlertTrig × MonitorDB :=
  let previous_sentiment :=
    (queryLatestHistory db.video_sentiment_history video_id).map (fun r => r.avg_sentiment)
  let alerts_triggered := alerts_for current_sentiment previous_sentiment thresholds
  (alerts_triggered,
   { db with
     alerts := db.alerts ++ alerts_triggered.map
       (fun a => ⟨video_id, a.alert_type, timestamp, a.threshold, a.value⟩) })

/-- Outcome of one call to `fetch_video_comments` as decided by the
external API: either the initial video lookup finds no items, or
pagination completes with a comment list, or an `HttpError` / unexpected
exception interrupts it after some comments were already accumulated. -/
inductive FetchOutcome where
  | lookupEmpty : FetchOutcome
  | success (comments : List RawComment) : FetchOutcome
  | httpErr (fetched : List RawComment) (status : ℕ) : FetchOutcome
  | unexpectedErr (fetched : List RawComment) (msg : String) : FetchOutcome
deriving DecidableEq

/-- From src/youtube_monitor.py `fetch_video_comments` (lines 157-245).
The first component is the Python return value (the comment list); the
second models the `print` diagnostics of lines 177 and 235-243 as short
tags.  All failures are caught: the function always returns. -/
def fetch_video_comments (video_id : String) (outcome : FetchOutcome) :
    List RawComment × List String :=
  match outcome with
  | .lookupEmpty => ([], ["video " ++ video_id ++ " not found or not accessible"])
  | .success comments => (comments, [])
  | .httpErr fetched status =>
    if status = 403 then
      (fetched, ["API quota exceeded or access denied for video " ++ video_id])
    else if status = 404 then
      (fetched, ["video " ++ video_id ++ " not found"])
    else
      (fetched, ["error fetching comments for video " ++ video_id])
  | .unexpectedErr fetched _ =>
    (fetched, ["unexpected error fetching comments for video " ++ video_id])

/-- From src/sentiment_analyzer.py `analyze_sentiment_batch` +
`add_sentiment_categories` as invoked by `analyze_comments_sentiment`
(src/youtube_monitor.py lines 247-264): an empty input gives an empty
frame, otherwise each comment gains a `Polarity` from the scorer (the
category column is not consumed by the monitor and is elided). -/
def analyze_comments_sentiment (score : String → ℚ) (comments : List RawComment) :
    List AnalyzedComment :=
  comments.map (fun c => ⟨c.comment_id, c.comment_text, c.author, c.like_count,
    score c.comment_text⟩)

/-- `INSERT OR REPLACE INTO video_info_cache` keyed by video_id
(`cache_video_info`, lines 514-538). -/
def upsertVideoInfo (rows : List VideoInfoRow) (info : VideoInfoRow) : List VideoInfoRow :=
  rows.filter (fun x => !(x.video_id == info.video_id)) ++ [info]

/-- From src/youtube_monitor.py `get_video_title` (lines 562-573) together
with `cache_video_info`: a cache hit returns the cached title untouched;
otherwise the API result `api_info` (the return of `get_video_info`) is
cached when present, else the id itself is the fallback title. -/
def get_video_title_db (db : MonitorDB) (video_id : String)
    (api_info : Option VideoInfoRow) : String × MonitorDB :=
  match db.video_info_cache.find? (fun r => r.video_id == video_id) with
  | some r => (r.title, db)
  | none =>
    match api_info with
    | some info => (info.title, { db with video_info_cache := upsertVideoInfo db.video_info_cache info })
    | none => (video_id, db)

/-- The per-video result dictionary of `monitor_video` /
`monitor_all_videos` (status plus the numeric fields a caller reads; the
wall-clock `timestamp` key and the returned dataframe are elided). -/
structure MonitorResult where
  video_id : String
  status : String
  error : Option String
  total_comments : ℤ
  avg_sentiment : ℚ
  positive_count : ℤ
  negative_count : ℤ
  neutral_count : ℤ
  alerts : ℕ
deriving DecidableEq

/-- A result record carrying only an id and a status. -/
def emptyResult (video_id status : String) : MonitorResult :=
  ⟨video_id, status, none, 0, 0, 0, 0, 0, 0⟩

/-- From src/youtube_monitor.py `save_snapshot` (lines 266-317).
`timestamp` is the single `datetime.now().isoformat()` read of line 278. -/
def save_snapshot (db : MonitorDB) (video_id : String) (comments_df : List AnalyzedComment)
    (timestamp : String) : MonitorDB :=
  if comments_df.isEmpty then db
  else
    let ps := comments_df.map (fun c => c.polarity)
    let avg_sentiment := mean ps
    let positive_count := positive_count_of ps
    let negative_count := negative_count_of ps
    let neutral_count := (comments_df.length : ℤ) - positive_count - negative_count
    { db with
      comment_snapshots :=
        appendCommentSnapshots db.comment_snapshots
          (comments_df.map (snapshotRowOf video_id timestamp)),
      video_sentiment_history :=
        insertOrReplaceHistory db.video_sentiment_history
          ⟨video_id, timestamp, avg_sentiment, positive_count, negative_count,
            neutral_count, (comments_df.length : ℤ)⟩ }

/-- From src/youtube_monitor.py `monitor_video` (lines 410-481): title
lookup (which may write the info cache), fetch, the two emptiness guards,
`save_snapshot`, then `check_sentiment_alerts` with the default
thresholds.  `fetched` is the list `fetch_video_comments` returned;
`t_save` / `t_alert` are the `datetime.now()` reads inside save_snapshot
and check_sentiment_alerts. -/
def monitor_video (db : MonitorDB) (video_id : String) (api_info : Option VideoInfoRow)
    (fetched : List RawComment) (score : String → ℚ) (t_save t_alert : String)
    (check_alerts : Bool) : MonitorResult × MonitorDB :=
  let db1 := (get_video_title_db db video_id api_info).2
  if fetched.isEmpty then (emptyResult video_id "no_comments", db1)
  else
    let comments_df := analyze_comments_sentiment score fetched
    if comments_df.isEmpty then (emptyResult video_id "analysis_failed", db1)
    else
      let db2 := save_snapshot db1 video_id comments_df t_save
      let ps := comments_df.map (fun c => c.polarity)
      let avg_sentiment := mean ps
      let out :=
        if check_alerts then
          check_sentiment_alerts db2 video_id avg_sentiment default_thresholds t_alert
        else ([], db2)
      (⟨video_id, "success", none, (comments_df.length : ℤ), avg_sentiment,
        positive_count_of ps, negative_count_of ps,
        (comments_df.length : ℤ) - positive_count_of ps - negative_count_of ps,
        out.1.length⟩, out.2)

/-- From src/youtube_monitor.py `monitor_all_videos` (lines 483-512): one
result per tracked id, in order; the per-video `try/except` converts an
exception into an `error` record carrying `str(e)`.  The per-video step
(`self.monitor_video(...)`, whose runtime exceptions the except clause
catches) is abstracted as `step`. -/
def monitor_all_videos (video_ids : List String)
    (step : String → Except String MonitorResult) : List MonitorResult :=
  video_ids.map (fun video_id =>
    match step video_id with
    | Except.ok r => r
    | Except.error e => ⟨video_id, "error", some e, 0, 0, 0, 0, 0, 0⟩)

/-- Concrete scorer for witness runs: every comment scores 0.1. -/
def score0 : String → ℚ := fun _ => 1/10

/-- Concrete analyzed comment for witness runs. -/
def ac0 : AnalyzedComment := ⟨"c1", "great", "alice", 0, 1/10⟩

/-- Fresh database: all four tables empty. -/
def dbEmpty : MonitorDB := ⟨[], [], [], []⟩

/-- Concrete API video-info result for concrete runs. -/
def info0 : VideoInfoRow := ⟨"v", "title0", "chan0", "desc0", "2020-01-01", 0, 0, 0, "t0"⟩

/-- Concrete cached video-info row for concrete runs. -/
def infoV : VideoInfoRow := ⟨"v", "titleV", "chanV", "descV", "2020-01-01", 0, 0, 0, "t0"⟩

/-- Concrete fetched comment for concrete runs. -/
def c0 : RawComment := ⟨"c1", "great", "alice", 0⟩

/-- Database holding one earlier-cycle history row for video "v" with
avg_sentiment 0.4, and "v" already present in the info cache. -/
def dbC1 : MonitorDB :=
  ⟨[infoV], [⟨"v", "2024-01-01T00:00:00", 2/5, 1, 0, 0, 1⟩], [], []⟩

lemma sameHistKey_self (r : HistoryRow) : sameHistKey r r = true := by
  simp [sameHistKey]

lemma filter_insertOrReplaceHistory (rows : List HistoryRow) (r : HistoryRow) :
    (insertOrReplaceHistory rows r).filter (fun x => sameHistKey x r) = [r] := by
  simp [insertOrReplaceHistory, List.filter_append, List.filter_filter, sameHistKey_self]

lemma sameSnapKey_self (r : SnapshotRow) : sameSnapKey r r = true := by
  simp [sameSnapKey]

lemma insertOrIgnoreSnapshot_of_mem (rows : List SnapshotRow) (r : SnapshotRow)
    (h : hasSnapKey rows r = true) : insertOrIgnoreSnapshot rows r = rows := by
  simp [insertOrIgnoreSnapshot, h]

lemma hasSnapKey_insertOrIgnoreSnapshot_mono (rows : List SnapshotRow) (s r : SnapshotRow)
    (h : hasSnapKey rows r = true) : hasSnapKey (insertOrIgnoreSnapshot rows s) r = true := by
  unfold insertOrIgnoreSnapshot
  split
  · exact h
  · unfold hasSnapKey at h ⊢
    simp [List.any_append, h]

lemma hasSnapKey_insertOrIgnoreSnapshot_self (rows : List SnapshotRow) (r : SnapshotRow) :
    hasSnapKey (insertOrIgnoreSnapshot rows r) r = true := by
  unfold insertOrIgnoreSnapshot
  split
  · assumption
  · unfold hasSnapKey
    simp [List.any_append, sameSnapKey_self]

lemma hasSnapKey_appendCommentSnapshots_mono (batch : List SnapshotRow) :
    ∀ (rows : List SnapshotRow) (r : SnapshotRow), hasSnapKey rows r = true →
    hasSnapKey (appendCommentSnapshots rows batch) r = true := by
  induction batch with
  | nil => intro rows r h; exact h
  | cons b bs ih =>
    intro rows r h
    exact ih _ r (hasSnapKey_insertOrIgnoreSnapshot_mono rows b r h)

lemma hasSnapKey_appendCommentSnapshots_of_mem (batch : List SnapshotRow) :
    ∀ (rows : List SnapshotRow) (r : SnapshotRow), r ∈ batch →
    hasSnapKey (appendCommentSnapshots rows batch) r = true := by
  induction batch with
  | nil => intro rows r h; cases h
  | cons b bs ih =>
    intro rows r h
    rcases List.mem_cons.mp h with h | h
    · subst h
      exact hasSnapKey_appendCommentSnapshots_mono bs _ r
        (hasSnapKey_insertOrIgnoreSnapshot_self rows r)
    · exact ih _ r h

lemma appendCommentSnapshots_of_all_mem (batch : List SnapshotRow) :
    ∀ (rows : List SnapshotRow), (∀ r ∈ batch, hasSnapKey rows r = true) →
    appendCommentSnapshots rows batch = rows := by
  induction batch with
  | nil => intro rows _; rfl
  | cons b bs ih =>
    intro rows h
    show appendCommentSnapshots (insertOrIgnoreSnapshot rows b) bs = rows
    rw [insertOrIgnoreSnapshot_of_mem rows b (h b (List.mem_cons_self b bs))]
    exact ih rows (fun r hr => h r (List.mem_cons_of_mem b hr))

lemma pairwise_insertOrIgnoreSnapshot (rows : List SnapshotRow) (r : SnapshotRow)
    (h : List.Pairwise (fun a b => sameSnapKey a b = false) rows) :
    List.Pairwise (fun a b => sameSnapKey a b = false) (insertOrIgnoreSnapshot rows r) := by
  unfold insertOrIgnoreSnapshot
  split
  · exact h
  · next hno =>
    rw [List.pairwise_append]
    refine ⟨h, List.pairwise_singleton _ _, ?_⟩
    intro a ha b hb
    rcases List.mem_singleton.mp hb with rfl
    have hfalse : hasSnapKey rows b = false := by
      simpa using hno
    unfold hasSnapKey at hfalse
    have hall := List.any_eq_false.mp hfalse a ha
    simpa using hall

lemma pairwise_appendCommentSnapshots (batch : List SnapshotRow) :
    ∀ (rows : List SnapshotRow),
    List.Pairwise (fun a b => sameSnapKey a b = false) rows →
    List.Pairwise (fun a b => sameSnapKey a b = false) (appendCommentSnapshots rows batch) := by
  induction batch with
  | nil => intro rows h; exact h
  | cons b bs ih =>
    intro rows h
    exact ih _ (pairwise_insertOrIgnoreSnapshot rows b h)

lemma alerts_for_mem_cases :
    ∀ (current : ℚ) (previous : Option ℚ) (th : Thresholds) (a : AlertTrig),
    a ∈ alerts_for current previous th →
    a = ⟨"negative_threshold", th.negative_threshold, current⟩ ∨
    a = ⟨"positive_threshold", th.positive_threshold, current⟩ ∨
    (∃ prev, previous = some prev ∧ a = ⟨"sentiment_drop", th.drop_threshold, current - prev⟩) ∨
    (∃ prev, previous = some prev ∧ a = ⟨"sentiment_rise", th.rise_threshold, current - prev⟩) := by
  intro current previous th a ha
  rcases previous with _ | prev <;> revert ha <;>
    simp only [alerts_for] <;> split_ifs <;> simp_all <;> tauto

/-- C1: in the orchestrated cycle (monitor_video with alerts on), the
delta baseline read by the alert check is the history row the same cycle
has just written, not the preceding cycle's entry: starting from a
database whose only history row for "v" has avg_sentiment 0.4 and running
a cycle whose comments average 0.1 (a −0.3 swing, past the 0.2 drop
threshold), queryLatestHistory returns the current cycle's own row, the
cycle emits zero alerts and writes no alert row. -/
theorem monitor_video_delta_baseline_is_own_write :
    (monitor_video dbC1 "v" none [c0] score0
        "2024-01-02T00:00:00" "2024-01-02T00:00:01" true).2.alerts = [] ∧
    (monitor_video dbC1 "v" none [c0] score0
        "2024-01-02T00:00:00" "2024-01-02T00:00:01" true).1.alerts = 0 ∧
    (monitor_video dbC1 "v" none [c0] score0
        "2024-01-02T00:00:00" "2024-01-02T00:00:01" true).1.avg_sentiment = 1/10 ∧
    queryLatestHistory (monitor_video dbC1 "v" none [c0] score0
        "2024-01-02T00:00:00" "2024-01-02T00:00:01" true).2.video_sentiment_history "v" =
      some ⟨"v", "2024-01-02T00:00:00", 1/10, 0, 0, 1, 1⟩ ∧
    dbC1.video_sentiment_history = [⟨"v", "2024-01-01T00:00:00", 2/5, 1, 0, 0, 1⟩] ∧
    alerts_for (1/10) (some (2/5)) default_thresholds = [⟨"sentiment_drop", 1/5, -(3/10)⟩] := by
  refine ⟨?_, ?_, ?_, ?_, rfl, ?_⟩ <;>
  · simp +decide only [monitor_video, get_video_title_db, analyze_comments_sentiment,
      save_snapshot, check_sentiment_alerts, queryLatestHistory, alerts_for,
      default_thresholds, mean, positive_count_of, negative_count_of, insertOrReplaceHistory,
      appendCommentSnapshots, insertOrIgnoreSnapshot, hasSnapKey, sameSnapKey, sameHistKey,
      snapshotRowOf, score0, c0, infoV, dbC1, emptyResult, List.filter, List.foldl, List.map,
      List.isEmpty, List.find?, List.any, List.length, Option.map, strLt, charListLt]
    norm_num

/-- C2 counterexample: the value fetch_video_comments returns to its
caller is the same empty comment list for a 403 access-denied/quota
failure, a 404 not-found, a generic HTTP failure and an unexpected
exception occurring before any page was read, and also for a successful
fetch that found no comments — the caller cannot tell any of them apart
from the return value. -/
theorem fetch_video_comments_failures_indistinguishable :
    (fetch_video_comments "vid" (.httpErr [] 403)).1 = (fetch_video_comments "vid" (.success [])).1 ∧
    (fetch_video_comments "vid" (.httpErr [] 404)).1 = (fetch_video_comments "vid" (.success [])).1 ∧
    (fetch_video_comments "vid" (.httpErr [] 500)).1 = (fetch_video_comments "vid" (.success [])).1 ∧
    (fetch_video_comments "vid" (.unexpectedErr [] "boom")).1 =
      (fetch_video_comments "vid" (.success [])).1 := by
  refine ⟨rfl, ?_, ?_, rfl⟩ <;> simp [fetch_video_comments]

/-- C2 amended: every fetch failure is caught (the function still returns
a value); the three failure kinds are distinguished only in the printed
diagnostics — 403 access-denied/quota, 404 not-found and generic each get
their own message — while the returned value is the comment list
accumulated before the failure, indistinguishable from a successful fetch
of those same comments. -/
theorem fetch_video_comments_failure_reporting :
    ∀ (video_id : String) (fetched : List RawComment) (msg : String),
    (fetch_video_comments video_id (.httpErr fetched 403)).1 = fetched ∧
    (fetch_video_comments video_id (.httpErr fetched 404)).1 = fetched ∧
    (fetch_video_comments video_id (.httpErr fetched 500)).1 = fetched ∧
    (fetch_video_comments video_id (.unexpectedErr fetched msg)).1 = fetched ∧
    (fetch_video_comments video_id (.httpErr fetched 403)).2 =
      ["API quota exceeded or access denied for video " ++ video_id] ∧
    (fetch_video_comments video_id (.httpErr fetched 404)).2 =
      ["video " ++ video_id ++ " not found"] ∧
    (fetch_video_comments video_id (.httpErr fetched 500)).2 =
      ["error fetching comments for video " ++ video_id] ∧
    (fetch_video_comments video_id (.unexpectedErr fetched msg)).2 =
      ["unexpected error fetching comments for video " ++ video_id] ∧
    (fetch_video_comments video_id (.success fetched)).1 = fetched ∧
    (fetch_video_comments video_id (.success fetched)).2 = [] := by
  intro video_id fetched msg
  refine ⟨?_, ?_, ?_, rfl, ?_, ?_, ?_, rfl, rfl, rfl⟩ <;> simp [fetch_video_comments]

/-- C3: monitor_all_videos yields exactly one result per tracked video,
in order; a step that returns normally passes its result through at that
video's position, and a step that raises is converted at the per-video
boundary into a result with status "error" carrying the exception
message, leaving every other position governed by its own step outcome. -/
theorem monitor_all_videos_isolation :
    ∀ (video_ids : List String) (step : String → Except String MonitorResult),
    (monitor_all_videos video_ids step).length = video_ids.length ∧
    (∀ (i : ℕ) (v : String), video_ids[i]? = some v →
      (∀ r, step v = Except.ok r → (monitor_all_videos video_ids step)[i]? = some r) ∧
      (∀ e, step v = Except.error e →
        (monitor_all_videos video_ids step)[i]? =
          some (⟨v, "error", some e, 0, 0, 0, 0, 0, 0⟩ : MonitorResult))) := by
  intro video_ids step
  constructor
  · simp [monitor_all_videos]
  · intro i v hv
    constructor
    · intro r hr
      simp [monitor_all_videos, List.getElem?_map, hv, hr]
    · intro e he
      simp [monitor_all_videos, List.getElem?_map, hv, he]

/-- C4: the evaluator emits a negative_threshold alert exactly when the
current average is strictly below the negative threshold (its value being
the current average); with no previous entry it emits zero delta-based
alerts; with a previous entry it emits sentiment_drop exactly when
current − previous is strictly below minus the drop threshold (its value
being that delta).  Concretely with the defaults: previous 0.4 and
current 0.1 give exactly one alert, a sentiment_drop with value −0.3;
current −0.35 gives a negative_threshold alert with value −0.35; current
−0.25 gives none. -/
theorem alerts_for_threshold_spec :
    ∀ (current : ℚ) (previous : Option ℚ) (th : Thresholds),
    ((alerts_for current previous th).any (fun a => a.alert_type == "negative_threshold")
        = decide (current < th.negative_threshold)) ∧
    (∀ a, a ∈ alerts_for current previous th → a.alert_type = "negative_threshold" →
        a.value = current) ∧
    ((alerts_for current none th).any
        (fun a => a.alert_type == "sentiment_drop" || a.alert_type == "sentiment_rise") = false) ∧
    (∀ prev, previous = some prev →
      ((alerts_for current previous th).any (fun a => a.alert_type == "sentiment_drop")
          = decide (current - prev < -th.drop_threshold)) ∧
      (∀ a, a ∈ alerts_for current previous th → a.alert_type = "sentiment_drop" →
          a.value = current - prev)) ∧
    alerts_for (1/10) (some (2/5)) default_thresholds = [⟨"sentiment_drop", 1/5, -(3/10)⟩] ∧
    alerts_for (-(7/20)) none default_thresholds = [⟨"negative_threshold", -(3/10), -(7/20)⟩] ∧
    alerts_for (-(1/4)) none default_thresholds = [] := by
  intro current previous th
  refine ⟨?_, ?_, ?_, ?_, ?_, ?_, ?_⟩
  · rcases previous with _ | prev <;>
      simp only [alerts_for] <;> split_ifs <;> simp_all
  · intro a ha hty
    rcases alerts_for_mem_cases current previous th a ha with
      rfl | rfl | ⟨prev, hp, rfl⟩ | ⟨prev, hp, rfl⟩ <;> simp_all
  · simp only [alerts_for] <;> split_ifs <;> simp_all
  · intro prev hprev
    subst hprev
    constructor
    · simp only [alerts_for] <;> split_ifs <;> simp_all
    · intro a ha hty
      rcases alerts_for_mem_cases current (some prev) th a ha with
        rfl | rfl | ⟨prev2, hp, rfl⟩ | ⟨prev2, hp, rfl⟩ <;> simp_all
  · norm_num [alerts_for, default_thresholds]
  · norm_num [alerts_for, default_thresholds]
  · norm_num [alerts_for, default_thresholds]

/-- C5: writing a history row twice for the same (video_id, timestamp)
key leaves exactly one row for that key — the second write — and the
operation is a total function (it never raises on conflict). -/
theorem appendHistory_replace_semantics :
    ∀ (rows : List HistoryRow) (r1 r2 : HistoryRow),
    r1.video_id = r2.video_id → r1.timestamp = r2.timestamp →
    (insertOrReplaceHistory (insertOrReplaceHistory rows r1) r2).filter
      (fun x => sameHistKey x r2) = [r2] := by
  intro rows r1 r2 _ _
  exact filter_insertOrReplaceHistory _ r2

/-- C5 witness: writing (v, t) with avg 0.4 then (v, t) with avg 0.1
into an empty table leaves exactly the second row for that key. -/
theorem appendHistory_replace_semantics_witness :
    (insertOrReplaceHistory (insertOrReplaceHistory []
        ⟨"v", "t", 2/5, 1, 0, 0, 1⟩) ⟨"v", "t", 1/10, 0, 0, 1, 1⟩).filter
      (fun x => sameHistKey x ⟨"v", "t", 1/10, 0, 0, 1, 1⟩) = [⟨"v", "t", 1/10, 0, 0, 1, 1⟩] :=
  appendHistory_replace_semantics [] ⟨"v", "t", 2/5, 1, 0, 0, 1⟩ ⟨"v", "t", 1/10, 0, 0, 1, 1⟩ rfl rfl

/-- C6: re-inserting an identical snapshot batch is a no-op — the table
and hence its row count are unchanged by the second pass — and the
insert-or-ignore policy preserves key-uniqueness (no duplicate rows);
the operation is a total function (never raises). -/
theorem appendCommentSnapshots_idempotent :
    ∀ (rows batch : List SnapshotRow),
    appendCommentSnapshots (appendCommentSnapshots rows batch) batch =
      appendCommentSnapshots rows batch ∧
    (appendCommentSnapshots (appendCommentSnapshots rows batch) batch).length =
      (appendCommentSnapshots rows batch).length ∧
    (List.Pairwise (fun a b => sameSnapKey a b = false) rows →
      List.Pairwise (fun a b => sameSnapKey a b = false) (appendCommentSnapshots rows batch)) := by
  intro rows batch
  have hidem : appendCommentSnapshots (appendCommentSnapshots rows batch) batch =
      appendCommentSnapshots rows batch :=
    appendCommentSnapshots_of_all_mem batch _
      (fun r hr => hasSnapKey_appendCommentSnapshots_of_mem batch rows r hr)
  exact ⟨hidem, by rw [hidem], pairwise_appendCommentSnapshots batch rows⟩

/-- C7: categorize_sentiment at the config defaults maps polarities
strictly below −0.5 to Very Negative, [−0.5, −0.1) to Negative,
[−0.1, 0.1] to Neutral, (0.1, 0.5] to Positive and above 0.5 to Very
Positive; in particular −0.5 is Negative, −0.1 and 0.1 are Neutral, and
0.5 is Positive. -/
theorem categorize_sentiment_partition :
    (∀ p : ℚ, p < -(1/2) → categorize_default p = "Very Negative") ∧
    (∀ p : ℚ, -(1/2) ≤ p → p < -(1/10) → categorize_default p = "Negative") ∧
    (∀ p : ℚ, -(1/10) ≤ p → p ≤ 1/10 → categorize_default p = "Neutral") ∧
    (∀ p : ℚ, 1/10 < p → p ≤ 1/2 → categorize_default p = "Positive") ∧
    (∀ p : ℚ, 1/2 < p → categorize_default p = "Very Positive") ∧
    categorize_default (-(1/2)) = "Negative" ∧
    categorize_default (-(1/10)) = "Neutral" ∧
    categorize_default (1/10) = "Neutral" ∧
    categorize_default (1/2) = "Positive" := by
  have key : ∀ p : ℚ,
      categorize_default p =
        if p < -(1/2) then "Very Negative"
        else if p < -(1/10) then "Negative"
        else if p ≤ 1/10 then "Neutral"
        else if p ≤ 1/2 then "Positive"
        else "Very Positive" := by
    intro p
    simp [categorize_default, categorize_sentiment, SENTIMENT_THRESHOLD_POSITIVE,
      SENTIMENT_THRESHOLD_NEGATIVE]
  refine ⟨?_, ?_, ?_, ?_, ?_, ?_, ?_, ?_, ?_⟩
  · intro p h
    rw [key]
    split_ifs <;> first | rfl | linarith
  · intro p h1 h2
    rw [key]
    split_ifs <;> first | rfl | linarith
  · intro p h1 h2
    rw [key]
    split_ifs <;> first | rfl | linarith
  · intro p h1 h2
    rw [key]
    split_ifs <;> first | rfl | linarith
  · intro p h
    rw [key]
    split_ifs <;> first | rfl | linarith
  · rw [key]
    norm_num
  · rw [key]
    norm_num
  · rw [key]
    norm_num
  · rw [key]
    norm_num

/-- C8: calculate_sentiment is total — when the underlying TextBlob call
fails it returns 0 (neutral), when it succeeds it returns the polarity
unchanged — and under TextBlob's contract that every produced polarity
lies in [−1, 1], every value calculate_sentiment returns lies in
[−1, 1]. -/
theorem calculate_sentiment_contract :
    ∀ (blob : String → Option ℚ) (comment_text : String),
    (blob comment_text = none → calculate_sentiment blob comment_text = 0) ∧
    (∀ q, blob comment_text = some q → calculate_sentiment blob comment_text = q) ∧
    ((∀ t q, blob t = some q → -1 ≤ q ∧ q ≤ 1) →
      -1 ≤ calculate_sentiment blob comment_text ∧ calculate_sentiment blob comment_text ≤ 1) := by
  intro blob comment_text
  refine ⟨?_, ?_, ?_⟩
  · intro h
    simp [calculate_sentiment, h]
  · intro q h
    simp [calculate_sentiment, h]
  · intro hrange
    rcases h : blob comment_text with _ | q
    · simp [calculate_sentiment, h]
    · simpa [calculate_sentiment, h] using hrange comment_text q h

/-- C9: every history row present after a save_snapshot call satisfies
total_comments = positive_count + negative_count + neutral_count,
provided every row already present satisfied it — so the invariant holds
of every row the monitor ever appends. -/
theorem save_snapshot_count_invariant :
    ∀ (db : MonitorDB) (video_id : String) (comments_df : List AnalyzedComment)
      (timestamp : String),
    (∀ r ∈ db.video_sentiment_history,
        r.total_comments = r.positive_count + r.negative_count + r.neutral_count) →
    ∀ r ∈ (save_snapshot db video_id comments_df timestamp).video_sentiment_history,
        r.total_comments = r.positive_count + r.negative_count + r.neutral_count := by
  intro db video_id comments_df timestamp hinv r hr
  by_cases hempty : comments_df.isEmpty
  · rw [save_snapshot, if_pos hempty] at hr
    exact hinv r hr
  · rw [save_snapshot, if_neg hempty] at hr
    simp only [insertOrReplaceHistory] at hr
    rcases List.mem_append.mp hr with h | h
    · exact hinv r (List.mem_of_mem_filter h)
    · rcases List.mem_singleton.mp h with rfl
      simp only
      ring

/-- C9 witness: the row written by saving one comment of polarity 0.1
into an empty store satisfies the counting invariant. -/
theorem save_snapshot_count_invariant_witness :
    (⟨"v", "t", 1/10, 0, 0, 1, 1⟩ : HistoryRow).total_comments =
      (⟨"v", "t", 1/10, 0, 0, 1, 1⟩ : HistoryRow).positive_count +
      (⟨"v", "t", 1/10, 0, 0, 1, 1⟩ : HistoryRow).negative_count +
      (⟨"v", "t", 1/10, 0, 0, 1, 1⟩ : HistoryRow).neutral_count :=
  save_snapshot_count_invariant dbEmpty "v" [ac0] "t" (by simp [dbEmpty])
    ⟨"v", "t", 1/10, 0, 0, 1, 1⟩
    (by simp +decide only [save_snapshot, insertOrReplaceHistory, appendCommentSnapshots,
          insertOrIgnoreSnapshot, hasSnapKey, sameSnapKey, sameHistKey, snapshotRowOf, mean,
          positive_count_of, negative_count_of, ac0, dbEmpty, List.filter, List.foldl,
          List.map, List.isEmpty, List.length]
        norm_num)

/-- C10 counterexample: a cycle on a video with no cached info whose
fetch returns zero comments reports no_comments yet writes the
video_info_cache table (the title lookup caches the API result), so the
database is not left exactly as it was. -/
theorem monitor_video_empty_cycle_cache_cex :
    (monitor_video dbEmpty "v" (some info0) [] score0 "t1" "t2" true).1.status = "no_comments" ∧
    (monitor_video dbEmpty "v" (some info0) [] score0 "t1" "t2" true).2.video_info_cache = [info0] ∧
    dbEmpty.video_info_cache = [] ∧
    decide ((monitor_video dbEmpty "v" (some info0) [] score0 "t1" "t2" true).2 = dbEmpty) = false := by
  refine ⟨?_, ?_, rfl, ?_⟩ <;>
    simp +decide only [monitor_video, get_video_title_db, upsertVideoInfo, emptyResult,
      dbEmpty, info0, score0, List.find?, List.filter, List.isEmpty]

/-- C10 amended: a cycle whose fetch returns zero comments reports
no_comments and leaves the sentiment history, comment snapshot and alert
tables exactly as they were (save_snapshot on an empty frame is the
identity, so no history row and no empty-frame average is ever written);
only the video_info_cache may additionally be written, by the title
lookup at the start of the cycle. -/
theorem monitor_video_empty_cycle_frame :
    ∀ (db : MonitorDB) (video_id : String) (api_info : Option VideoInfoRow)
      (score : String → ℚ) (t_save t_alert : String) (check_alerts : Bool),
    (monitor_video db video_id api_info [] score t_save t_alert check_alerts).1 =
      emptyResult video_id "no_comments" ∧
    (monitor_video db video_id api_info [] score t_save t_alert check_alerts).2.video_sentiment_history =
      db.video_sentiment_history ∧
    (monitor_video db video_id api_info [] score t_save t_alert check_alerts).2.comment_snapshots =
      db.comment_snapshots ∧
    (monitor_video db video_id api_info [] score t_save t_alert check_alerts).2.alerts =
      db.alerts ∧
    (∀ (v t : String), save_snapshot db v [] t = db) := by
  intro db video_id api_info score t_save t_alert check_alerts
  have hdb1 : ∀ (out : String × MonitorDB), out = get_video_title_db db video_id api_info →
      out.2.video_sentiment_history = db.video_sentiment_history ∧
      out.2.comment_snapshots = db.comment_snapshots ∧
      out.2.alerts = db.alerts := by
    intro out hout
    rw [hout]
    unfold get_video_title_db
    rcases hfind : db.video_info_cache.find? (fun r => r.video_id == video_id) with _ | r
    · rcases api_info with _ | info <;> simp [hfind]
    · simp [hfind]
  have h1 := hdb1 _ rfl
  refine ⟨?_, ?_, ?_, ?_, ?_⟩
  · simp [monitor_video]
  · simpa [monitor_video] using h1.1
  · simpa [monitor_video] using h1.2.1
  · simpa [monitor_video] using h1.2.2
  · intro v t
    simp [save_snapshot]
